import Mathlib

/-!
Verification of the spotify-shadow-listen-mcp core: the Spotify token
manager (`SpotifyAPI.ensure_token`), the authenticated accessors
(`SpotifyAPI.get` / `SpotifyAPI.post`), the derived-metric tools
(`analyze_listening_shift`, `predict_future_taste`), the remediation
wrappers (`get_playlist`, `get_playlist_tracks`) and the
`compare_tracks` guard.

The embedding follows `src/tools/spotify_api.py`, `src/main.py`,
`src/tools/playlists.py` and `src/server.py`. Network effects are made
explicit: every operation takes the response the HTTP layer would
deliver as a parameter and reports whether a network call was attempted.
Python floats are modelled as rationals; a raised exception is an
`Except.error`.
-/

deriving instance DecidableEq for Except

namespace ShadowListen

/-- Prefix test on character lists: `isPref pat s` holds when `pat`
begins `s` (helper for the Python `in` operator on strings). -/
def isPref : List Char → List Char → Bool
  | [], _ => true
  | _ :: _, [] => false
  | c :: cs, d :: ds => c == d && isPref cs ds

/-- Substring test on character lists, the semantics of Python's
`pat in s` for strings. -/
def hasSub (pat : List Char) : List Char → Bool
  | [] => isPref pat []
  | c :: rest => isPref pat (c :: rest) || hasSub pat rest

/-- Python's `sub in s` for strings. -/
def strContains (s sub : String) : Bool :=
  hasSub sub.data s.data

/-- Error taxonomy of the adapter. Every raised `McpError` in the source
carries a message string; the constructors record which site raised it
and the data interpolated into the message (`render` rebuilds the exact
message string of the source). -/
inductive SpotifyError where
  /-- Missing client credentials (spec: `ConfigurationError`). -/
  | config (msg : String)
  /-- Token endpoint rejected the request (spec: `AuthenticationError`). -/
  | auth (msg : String)
  /-- `httpx.RequestError` caught and re-raised (spec: `TransportError`). -/
  | transport (msg : String)
  /-- Resource endpoint returned status ≥ 400 (spec: `UpstreamRequestError`). -/
  | upstream (method : String) (path : String) (status : Nat) (body : String)
deriving DecidableEq

/-- Message string of the raised `McpError`, exactly as interpolated in
`src/tools/spotify_api.py` (for `upstream`:
`f"Spotify GET \x7bpath\x7d failed: HTTP \x7bstatus\x7d: \x7btext\x7d"`). -/
def SpotifyError.render : SpotifyError → String
  | .config m => m
  | .auth m => m
  | .transport m => m
  | .upstream method path status body =>
      "Spotify " ++ method ++ " " ++ path ++ " failed: HTTP " ++ toString status ++ ": " ++ body

/-- Message raised when client credentials are missing
(`src/tools/spotify_api.py` line 40). -/
def missingCredsMsg : String :=
  "Missing Spotify API credentials. Set SPOTIFY_CLIENT_ID and SPOTIFY_CLIENT_SECRET in .env file."

/-- Fixed guidance message raised on a 400 response whose body mentions
invalid_client (`src/tools/spotify_api.py` lines 83-88). -/
def invalidClientMsg : String :=
  "Invalid Spotify client credentials. Please check that:\n" ++
  "1. Your SPOTIFY_CLIENT_ID and SPOTIFY_CLIENT_SECRET are correct\n" ++
  "2. The credentials are for a valid Spotify app\n" ++
  "3. The credentials are properly formatted in your .env file with no extra spaces"

/-- Environment-sourced credential set (`os.getenv` results; `none`
models an unset variable). -/
structure Config where
  clientId : Option String
  clientSecret : Option String
  refreshToken : Option String

/-- Python truthiness of an `os.getenv` result: `None` and the empty
string are falsy. -/
def truthyEnv : Option String → Bool
  | none => false
  | some s => !(s == "")

/-- The process-wide cached token: `SpotifyAPI._access_token` and
`SpotifyAPI._expires_at`. -/
structure TokenState where
  accessToken : String
  expiresAt : ℚ
deriving DecidableEq

/-- Initial class state: `_access_token = ""`, `_expires_at = 0.0`. -/
def initialTokenState : TokenState := ⟨"", 0⟩

/-- Parsed JSON of a 200 token response: `resp["access_token"]` and the
optional `resp.get("expires_in", 3600)` field. -/
structure TokenResponse where
  accessToken : String
  expiresIn : Option ℚ

/-- What the HTTP POST to the token endpoint delivers: either a response
(status, raw body text, parsed JSON) or an `httpx.RequestError`. -/
inductive TokenHttp where
  | response (status : Nat) (body : String) (json : TokenResponse)
  | requestError (msg : String)

namespace SpotifyAPI

/-- Embedding of `SpotifyAPI.ensure_token` (`src/tools/spotify_api.py`
lines 29-102). Inputs: the credential set, the current time `now`, the
cached token state, and the response the token endpoint would deliver if
called. Output: the returned token or raised error, the new cached
state, and whether a network call was attempted. -/
def ensure_token (cfg : Config) (now : ℚ) (st : TokenState) (net : TokenHttp) :
    Except SpotifyError String × TokenState × Bool :=
  if now < st.expiresAt - 60 then
    (.ok st.accessToken, st, false)
  else if !truthyEnv cfg.clientId || !truthyEnv cfg.clientSecret then
    (.error (.config missingCredsMsg), st, false)
  else
    match net with
    | .requestError m => (.error (.transport ("Connection error: " ++ m)), st, true)
    | .response status body j =>
      if status ≠ 200 then
        let msg :=
          if status == 400 && strContains body "invalid_client" then invalidClientMsg
          else "Spotify auth failed: HTTP " ++ toString status ++ ": " ++ body
        (.error (.auth msg), st, true)
      else
        (.ok j.accessToken, ⟨j.accessToken, now + j.expiresIn.getD 3600⟩, true)

end SpotifyAPI

/-- Lightweight JSON value, the shape of `r.json()` results from the
resource API. Numbers are rationals (Python floats abstracted). -/
inductive JVal where
  | null
  | num (q : ℚ)
  | str (s : String)
  | arr (xs : List JVal)
  | obj (fields : List (String × JVal))

/-- What an HTTP call to the resource API delivers: a response
(status, raw body text, parsed JSON) or an `httpx.RequestError`. -/
inductive RestResponse where
  | response (status : Nat) (body : String) (json : JVal)
  | requestError (msg : String)

namespace SpotifyAPI

/-- Embedding of `SpotifyAPI.get` (`src/tools/spotify_api.py` lines
104-131). `auth` is the outcome of the `ensure_token()` call made
first; `net` the response the resource endpoint would deliver. -/
def get (auth : Except SpotifyError String) (path : String) (net : RestResponse) :
    Except SpotifyError JVal :=
  match auth with
  | .error e => .error e
  | .ok _token =>
    match net with
    | .requestError m => .error (.transport ("Request error: " ++ m))
    | .response status body j =>
      if status ≥ 400 then .error (.upstream "GET" path status body)
      else .ok j

/-- Embedding of `SpotifyAPI.post` (`src/tools/spotify_api.py` lines
133-159); same shape as `get` with the POST failure message. -/
def post (auth : Except SpotifyError String) (path : String) (net : RestResponse) :
    Except SpotifyError JVal :=
  match auth with
  | .error e => .error e
  | .ok _token =>
    match net with
    | .requestError m => .error (.transport ("Request error: " ++ m))
    | .response status body j =>
      if status ≥ 400 then .error (.upstream "POST" path status body)
      else .ok j

end SpotifyAPI

/-- Python exceptions that escape the tool bodies (uncaught unless a
bare `except` surrounds them). -/
inductive PyErr where
  | zeroDivision
  | indexError
  | attributeError
deriving DecidableEq

/-- An upstream record as consumed by the derived-metric tools: one
entry of the `audio_features` array, read only through numeric fields
(`f.get("valence", 0)` / `f.get("energy", 0)`). -/
def Record := List (String × ℚ)

/-- Python `f.get(field, 0)` on a record: the field's value, or 0 when
the field is absent. -/
def pyGetNum (r : Record) (field : String) : ℚ :=
  (List.lookup field r).getD 0

/-- The generator sum `sum(f.get(field, 0) for f in g)`. -/
def sumField (field : String) (g : List Record) : ℚ :=
  (g.map fun r => pyGetNum r field).sum

/-- The reduction `sum(f.get(field, 0) for f in g) / len(g)`: Python
raises `ZeroDivisionError` when the group is empty, there is no guard
in the source. -/
def avgField (field : String) (g : List Record) : Except PyErr ℚ :=
  if g.length = 0 then .error .zeroDivision
  else .ok (sumField field g / g.length)

/-- Classification of `analyze_listening_shift` (`src/main.py` line
116): `"upbeat" if shift > 0.1 else "mellow" if shift < -0.1 else
"stable"`. -/
def vibeOf (shift : ℚ) : String :=
  if shift > 1/10 then "upbeat"
  else if shift < -(1/10) then "mellow"
  else "stable"

/-- Classification of `predict_future_taste` (`src/main.py` line 148),
same thresholds with different labels. -/
def forecastOf (delta : ℚ) : String :=
  if delta > 1/10 then "hyping up"
  else if delta < -(1/10) then "winding down"
  else "steady"

/-- Computation core of `analyze_listening_shift` (`src/main.py` lines
113-117), taking the two fetched `audio_features` groups. Returns the
shift and the vibe label, or the uncaught exception. -/
def analyze_listening_shift (bf af : List Record) : Except PyErr (ℚ × String) := do
  let avg_b ← avgField "valence" bf
  let avg_a ← avgField "valence" af
  let shift := avg_a - avg_b
  pure (shift, vibeOf shift)

/-- Computation core of `predict_future_taste` (`src/main.py` lines
145-149): energy averages of the short-term and long-term groups. -/
def predict_future_taste (sf lf : List Record) : Except PyErr (ℚ × String) := do
  let avg_s ← avgField "energy" sf
  let avg_l ← avgField "energy" lf
  let delta := avg_s - avg_l
  pure (delta, forecastOf delta)

/-- A tool's returned `TextContent`: either a literal text message or
`json.dumps` of a JSON value (serialisation kept symbolic). -/
inductive ToolOutput where
  | text (s : String)
  | jsonText (v : JVal)

/-- Remediation message of `get_playlist`
(`src/tools/playlists.py` lines 19-25). -/
def playlistRemediationMsg (playlist_id : String) : String :=
  "Unable to access playlist " ++ playlist_id ++
  ". Spotify requires user authorization to access playlists.\n\n" ++
  "To fix this:\n" ++
  "1. You need to set up a refresh token with the proper scopes\n" ++
  "2. Add it to your .env file as SPOTIFY_REFRESH_TOKEN\n\n" ++
  "Alternative: Try searching for public playlists instead."

/-- Remediation message of `get_playlist_tracks`
(`src/tools/playlists.py` lines 39-45). -/
def playlistTracksRemediationMsg (playlist_id : String) : String :=
  "Unable to access tracks for playlist " ++ playlist_id ++
  ". Spotify requires user authorization to access playlist tracks.\n\n" ++
  "To fix this:\n" ++
  "1. You need to set up a refresh token with the proper scopes\n" ++
  "2. Add it to your .env file as SPOTIFY_REFRESH_TOKEN\n\n" ++
  "Alternative: Try searching for tracks directly or browse featured playlists."

/-- Embedding of `get_playlist` (`src/tools/playlists.py` lines 11-28):
fetch the playlist; on an `McpError` whose message contains both "404"
and "Resource not found", return the remediation text, otherwise
re-raise. `str(e)` on an `McpError` is its message, here `e.render`. -/
def get_playlist (playlist_id : String) (auth : Except SpotifyError String)
    (net : RestResponse) : Except SpotifyError ToolOutput :=
  match SpotifyAPI.get auth ("playlists/" ++ playlist_id) net with
  | .ok data => .ok (.jsonText data)
  | .error e =>
    if strContains e.render "404" && strContains e.render "Resource not found" then
      .ok (.text (playlistRemediationMsg playlist_id))
    else .error e

/-- Embedding of `get_playlist_tracks` (`src/tools/playlists.py` lines
31-48); the `limit` query parameter does not affect the modelled
behaviour and is omitted. -/
def get_playlist_tracks (playlist_id : String) (auth : Except SpotifyError String)
    (net : RestResponse) : Except SpotifyError ToolOutput :=
  match SpotifyAPI.get auth ("playlists/" ++ playlist_id ++ "/tracks") net with
  | .ok data => .ok (.jsonText data)
  | .error e =>
    if strContains e.render "404" && strContains e.render "Resource not found" then
      .ok (.text (playlistTracksRemediationMsg playlist_id))
    else .error e

/-- Python truthiness of a JSON value (`if feature_data`). -/
def jTruthy : JVal → Bool
  | .null => false
  | .num q => !(q == 0)
  | .str s => !(s == "")
  | .arr xs => !xs.isEmpty
  | .obj fs => !fs.isEmpty

/-- `isinstance(v, str)`. -/
def jIsStr : JVal → Bool
  | .str _ => true
  | _ => false

/-- Python `d.get(k, default)`: raises `AttributeError` when `d` is not
a dict. -/
def pyDictGet (d : JVal) (k : String) (default : JVal) : Except PyErr JVal :=
  match d with
  | .obj fs => .ok ((List.lookup k fs).getD default)
  | _ => .error .attributeError

/-- Python `d.get(k)` (default `None`). -/
def pyDictGetOpt (d : JVal) (k : String) : Except PyErr JVal :=
  pyDictGet d k .null

/-- Python `xs[i]`: `IndexError` out of range, `AttributeError` class
failure when not a list. -/
def pyIndex (v : JVal) (i : Nat) : Except PyErr JVal :=
  match v with
  | .arr xs =>
    match xs.get? i with
    | some x => .ok x
    | none => .error .indexError
  | _ => .error .attributeError

/-- Rendering of a JSON value inside an f-string. Only the string case
is observed by the claims; non-string payloads are abstracted. -/
def pyStr : JVal → String
  | .str s => s
  | .num q => toString q
  | .null => "None"
  | .arr _ => "[...]"
  | .obj _ => "\x7b...\x7d"

/-- The upstream fetches `compare_tracks` can make, per track id:
`tracks/\x7bid\x7d` and `audio-features/\x7bid\x7d`
(`src/server.py` lines 442-470). -/
structure Oracle where
  track : String → Except SpotifyError JVal
  features : String → Except SpotifyError JVal

/-- The `track_info` dict built from a fetched track
(`src/server.py` lines 446-450): name and artist with "Unknown"
defaults; any exception here is caught by the bare outer `except`. -/
def trackInfoOf (td : JVal) : Except PyErr (String × String) := do
  let nameV ← pyDictGet td "name" (.str "Unknown")
  let artistsV ← pyDictGet td "artists" (.arr [.obj []])
  let a0 ← pyIndex artistsV 0
  let artistV ← pyDictGet a0 "name" (.str "Unknown")
  pure (pyStr nameV, pyStr artistV)

/-- One iteration of the fetch loop of `compare_tracks`
(`src/server.py` lines 442-470): track info (placeholder on any
failure), the feature entry (`none` models Python's appended `None`),
and the number of upstream calls attempted. -/
def fetchOne (o : Oracle) (track_id : String) : ((String × String) × Option JVal) × Nat :=
  match o.track track_id with
  | .error _ => ((("Unknown Track", "Unknown Artist"), none), 1)
  | .ok td =>
    match trackInfoOf td with
    | .error _ => ((("Unknown Track", "Unknown Artist"), none), 1)
    | .ok info =>
      match o.features track_id with
      | .error _ => ((info, none), 2)
      | .ok fd =>
        ((info, if jTruthy fd && !(jIsStr fd) then some fd else none), 2)

/-- The guard message of `compare_tracks` (`src/server.py` line 436). -/
def compareGuardMsg : String :=
  "Please provide between 2 and 5 track IDs for comparison"

/-- The no-features fallback message (`src/server.py` line 473). -/
def compareNoFeaturesMsg : String :=
  "Could not retrieve audio features for the provided tracks. Please verify the track IDs and try again."

/-- The compared feature names (`src/server.py` line 477). -/
def comparisonFeatureNames : List String :=
  ["danceability", "energy", "valence", "tempo", "acousticness", "instrumentalness"]

/-- Embedding of `compare_tracks` (`src/server.py` lines 433-484).
Result: the tool output paired with the number of upstream calls
attempted, or an exception escaping the comparison loop. -/
def compare_tracks (o : Oracle) (track_ids : List String) :
    Except PyErr (ToolOutput × Nat) :=
  if ¬(2 ≤ track_ids.length ∧ track_ids.length ≤ 5) then
    .ok (.text compareGuardMsg, 0)
  else
    let per := track_ids.map (fetchOne o)
    let calls := (per.map fun x => x.2).sum
    let tracks_info := per.map fun x => x.1.1
    let features := per.map fun x => x.1.2
    if ¬(features.any fun f => f.isSome) ∨ features.length < 2 then
      .ok (.text compareNoFeaturesMsg, calls)
    else do
      let comparison ← comparisonFeatureNames.mapM fun fn => do
        let entries ← (tracks_info.zip features).filterMapM fun p =>
          match p.2 with
          | none => pure none
          | some fv => do
            let v ← pyDictGetOpt fv fn
            pure (some (p.1.1 ++ " by " ++ p.1.2, v))
        pure (fn, JVal.obj entries)
      pure (.jsonText (.obj comparison), calls)

/-! ## Theorems -/

/-- The three labels of `vibeOf` characterise the threshold comparison
exactly. -/
lemma vibeOf_eq_iff (d : ℚ) :
    (vibeOf d = "upbeat" ↔ d > 1/10) ∧
    (vibeOf d = "mellow" ↔ d < -(1/10)) ∧
    (vibeOf d = "stable" ↔ (-(1/10) ≤ d ∧ d ≤ 1/10)) := by
  unfold vibeOf
  split_ifs with h1 h2
  · exact ⟨⟨fun _ => h1, fun _ => rfl⟩,
      ⟨fun hs => absurd hs (by decide), fun hlt => absurd h1 (by linarith)⟩,
      ⟨fun hs => absurd hs (by decide), fun hb => absurd h1 (by rcases hb with ⟨_, h⟩; linarith)⟩⟩
  · exact ⟨⟨fun hs => absurd hs (by decide), fun hgt => absurd hgt h1⟩,
      ⟨fun _ => h2, fun _ => rfl⟩,
      ⟨fun hs => absurd hs (by decide), fun hb => absurd h2 (by rcases hb with ⟨h, _⟩; linarith)⟩⟩
  · exact ⟨⟨fun hs => absurd hs (by decide), fun hgt => absurd hgt h1⟩,
      ⟨fun hs => absurd hs (by decide), fun hlt => absurd hlt h2⟩,
      ⟨fun _ => ⟨by linarith [not_lt.mp h2], by linarith [not_lt.mp h1]⟩, fun _ => rfl⟩⟩

/-- Whenever `analyze_listening_shift` succeeds, its label is `vibeOf`
of its shift. -/
lemma analyze_label_eq_vibeOf (bf af : List Record) (d : ℚ) (s : String)
    (h : analyze_listening_shift bf af = .ok (d, s)) : s = vibeOf d := by
  unfold analyze_listening_shift at h
  cases hb : avgField "valence" bf with
  | error e => rw [hb] at h; simp [Bind.bind, Except.bind] at h
  | ok qb =>
    cases ha : avgField "valence" af with
    | error e => rw [hb, ha] at h; simp [Bind.bind, Except.bind] at h
    | ok qa =>
      rw [hb, ha] at h
      simp only [Bind.bind, Except.bind, pure, Except.pure, Except.ok.injEq, Prod.mk.injEq] at h
      rw [← h.1, ← h.2]

/-- C1: for every successful run of the listening-shift tool, the label
is "upbeat" exactly when the delta exceeds 0.1, "mellow" exactly when it
is below -0.1, and "stable" otherwise; in particular deltas -0.3, +0.2
and +0.05 classify as "mellow", "upbeat" and "stable". -/
theorem shift_classification :
    (∀ (bf af : List Record) (d : ℚ) (s : String),
        analyze_listening_shift bf af = .ok (d, s) →
        ((s = "upbeat" ↔ d > 1/10) ∧ (s = "mellow" ↔ d < -(1/10)) ∧
         (s = "stable" ↔ (-(1/10) ≤ d ∧ d ≤ 1/10)))) ∧
    vibeOf (-(3/10)) = "mellow" ∧ vibeOf (2/10) = "upbeat" ∧ vibeOf (1/20) = "stable" := by
  refine ⟨?_, by norm_num [vibeOf], by norm_num [vibeOf], by norm_num [vibeOf]⟩
  intro bf af d s h
  rw [analyze_label_eq_vibeOf bf af d s h]
  exact vibeOf_eq_iff d

/-- Witness for C1: the tool on valence averages 0.8 and 0.5 yields
shift -0.3 and label "mellow". -/
theorem shift_classification_witness :
    (("mellow" : String) = "mellow" ↔ ((-(3/10) : ℚ) < -(1/10))) :=
  (shift_classification.1 [[("valence", 4/5)]] [[("valence", 1/2)]]
    (-(3/10)) "mellow" (by norm_num [analyze_listening_shift, avgField, sumField,
      pyGetNum, Bind.bind, Except.bind, pure, Except.pure, vibeOf])).2.1

/-- C4 (code bug): both derived-metric tools divide by the group length
without a guard, so an empty group makes the tool fail with an uncaught
ZeroDivisionError instead of the defined, explicitly guarded error the
spec requires. -/
theorem empty_group_division_bug :
    analyze_listening_shift [] [[("valence", 1)]] = .error .zeroDivision ∧
    analyze_listening_shift [[("valence", 1)]] [] = .error .zeroDivision ∧
    predict_future_taste [] [] = .error .zeroDivision :=
  ⟨rfl, rfl, rfl⟩

/-- C5: the reduction is the arithmetic mean over the group where a
record missing the field contributes 0: dropping a fieldless record
leaves the summed total unchanged, a non-empty group averages to
sum / length, and the group with valences \x7b0.8\x7d and \x7b\x7d
averages to 0.4. -/
theorem missing_field_defaults_zero :
    (∀ (field : String) (r : Record) (g : List Record),
        List.lookup field r = none → sumField field (r :: g) = sumField field g) ∧
    (∀ (field : String) (g : List Record), g ≠ [] →
        avgField field g = .ok (sumField field g / g.length)) ∧
    avgField "valence" [[("valence", 4/5)], []] = .ok (2/5) := by
  refine ⟨?_, ?_, ?_⟩
  · intro field r g h
    simp [sumField, pyGetNum, h]
  · intro field g hg
    rw [avgField, if_neg (by simpa using fun h => hg (List.length_eq_zero.mp h))]
  · norm_num [avgField, sumField, pyGetNum, List.lookup]

/-- Witness for C5: dropping the empty record from the concrete group
keeps the sum, and the concrete group averages to 0.4. -/
theorem missing_field_defaults_zero_witness :
    sumField "valence" ([] :: [[("valence", 4/5)]]) = sumField "valence" [[("valence", 4/5)]] ∧
    avgField "valence" [[("valence", 4/5)], []] = .ok (2/5) :=
  ⟨missing_field_defaults_zero.1 "valence" [] [[("valence", 4/5)]] rfl,
   missing_field_defaults_zero.2.2⟩

/-- C2: a call made while `now < expiry - 60` returns the cached token,
attempts no network call and leaves the cached state unmodified, and a
second call inside the window returns the same string. -/
theorem token_cache_hit :
    ∀ (cfg : Config) (now now2 : ℚ) (st : TokenState) (net net2 : TokenHttp),
      now < st.expiresAt - 60 → now2 < st.expiresAt - 60 →
      SpotifyAPI.ensure_token cfg now st net = (.ok st.accessToken, st, false) ∧
      (SpotifyAPI.ensure_token cfg now2 st net2).1 = .ok st.accessToken := by
  intro cfg now now2 st net net2 h h2
  constructor
  · rw [SpotifyAPI.ensure_token.eq_def, if_pos h]
  · rw [SpotifyAPI.ensure_token.eq_def, if_pos h2]

/-- Witness for C2: with expiry 1000 and now 0 the cached token "tok" is
returned without touching the (unreachable) network. -/
theorem token_cache_hit_witness :
    SpotifyAPI.ensure_token ⟨none, none, none⟩ 0 ⟨"tok", 1000⟩ (.requestError "down")
      = (.ok "tok", ⟨"tok", 1000⟩, false) :=
  (token_cache_hit ⟨none, none, none⟩ 0 0 ⟨"tok", 1000⟩ (.requestError "down")
    (.requestError "down") (by norm_num) (by norm_num)).1

set_option maxRecDepth 10000 in
/-- Counterexample to C3 as stated: a 400 response whose body mentions
invalid_client raises the fixed guidance message, which carries neither
the HTTP status nor the response body. -/
theorem token_error_message_counterexample :
    (SpotifyAPI.ensure_token ⟨some "id", some "secret", none⟩ 0 ⟨"", 0⟩
        (.response 400 "invalid_client" ⟨"", none⟩)).1
      = .error (.auth invalidClientMsg) ∧
    strContains invalidClientMsg "400" = false ∧
    strContains invalidClientMsg "invalid_client" = false := by
  refine ⟨?_, by decide, by decide⟩
  have h1 : ¬((0:ℚ) < (0:ℚ) - 60) := by norm_num
  have hcred : (!truthyEnv (some "id") || !truthyEnv (some "secret")) = false := by decide
  have hmain : ((400:Nat) == 400 && strContains "invalid_client" "invalid_client") = true := by
    decide
  simp only [SpotifyAPI.ensure_token, if_neg h1, hcred, Bool.false_eq_true, if_false,
    hmain, if_true]
  norm_num

/-- C3 (amended): every non-200 token response raises an authentication
error and leaves the cached state untouched; the message carries the
HTTP status and body except for a 400 whose body mentions
invalid_client, which raises the fixed guidance message instead. -/
theorem token_error_no_cache :
    ∀ (cfg : Config) (now : ℚ) (st : TokenState) (status : Nat) (body : String)
      (j : TokenResponse),
      ¬(now < st.expiresAt - 60) →
      truthyEnv cfg.clientId = true → truthyEnv cfg.clientSecret = true →
      status ≠ 200 →
      ∃ msg, SpotifyAPI.ensure_token cfg now st (.response status body j)
          = (.error (.auth msg), st, true) ∧
        (¬(status = 400 ∧ strContains body "invalid_client" = true) →
          msg = "Spotify auth failed: HTTP " ++ toString status ++ ": " ++ body) ∧
        ((status = 400 ∧ strContains body "invalid_client" = true) →
          msg = invalidClientMsg) := by
  intro cfg now st status body j hnow hid hsec hstatus
  have hcred : (!truthyEnv cfg.clientId || !truthyEnv cfg.clientSecret) = false := by
    simp [hid, hsec]
  by_cases hc : (status == 400 && strContains body "invalid_client") = true
  · refine ⟨invalidClientMsg, ?_, ?_, fun _ => rfl⟩
    · simp only [SpotifyAPI.ensure_token, if_neg hnow, hcred, Bool.false_eq_true, if_false,
        if_pos hstatus, hc, if_true]
    · intro hn
      simp only [Bool.and_eq_true, beq_iff_eq] at hc
      exact absurd hc hn
  · have hc2 : (status == 400 && strContains body "invalid_client") = false := by
      revert hc; cases status == 400 && strContains body "invalid_client" <;> simp
    refine ⟨"Spotify auth failed: HTTP " ++ toString status ++ ": " ++ body, ?_,
      fun _ => rfl, ?_⟩
    · simp only [SpotifyAPI.ensure_token, if_neg hnow, hcred, Bool.false_eq_true, if_false,
        if_pos hstatus, hc2]
    · intro hyes
      exact absurd (by simp only [Bool.and_eq_true, beq_iff_eq]; exact hyes) hc

/-- Witness for C3's amended theorem: a 500 response with body "oops"
raises an authentication error carrying status and body, caching
nothing. -/
theorem token_error_no_cache_witness :
    ∃ msg, SpotifyAPI.ensure_token ⟨some "id", some "secret", none⟩ 0 ⟨"", 0⟩
        (.response 500 "oops" ⟨"", none⟩)
        = (.error (.auth msg), ⟨"", 0⟩, true) ∧
      (¬(500 = 400 ∧ strContains "oops" "invalid_client" = true) →
        msg = "Spotify auth failed: HTTP " ++ toString 500 ++ ": " ++ "oops") ∧
      ((500 = 400 ∧ strContains "oops" "invalid_client" = true) →
        msg = invalidClientMsg) :=
  token_error_no_cache ⟨some "id", some "secret", none⟩ 0 ⟨"", 0⟩ 500 "oops" ⟨"", none⟩
    (by norm_num) rfl rfl (by decide)

/-- C6: a 200 token response stores the response's access_token with
expiry now + expires_in (3600 when the field is absent) and returns the
newly stored token. -/
theorem token_success_caches :
    ∀ (cfg : Config) (now : ℚ) (st : TokenState) (body : String) (j : TokenResponse),
      ¬(now < st.expiresAt - 60) →
      truthyEnv cfg.clientId = true → truthyEnv cfg.clientSecret = true →
      SpotifyAPI.ensure_token cfg now st (.response 200 body j)
        = (.ok j.accessToken, ⟨j.accessToken, now + j.expiresIn.getD 3600⟩, true) ∧
      (j.expiresIn = none →
        (SpotifyAPI.ensure_token cfg now st (.response 200 body j)).2.1.expiresAt
          = now + 3600) := by
  intro cfg now st body j hnow hid hsec
  have hcred : (!truthyEnv cfg.clientId || !truthyEnv cfg.clientSecret) = false := by
    simp [hid, hsec]
  have hmain : SpotifyAPI.ensure_token cfg now st (.response 200 body j)
      = (.ok j.accessToken, ⟨j.accessToken, now + j.expiresIn.getD 3600⟩, true) := by
    simp only [SpotifyAPI.ensure_token, if_neg hnow, hcred, Bool.false_eq_true, if_false,
      ne_eq, not_true_eq_false, if_neg (fun (h : (200:Nat) ≠ 200) => h rfl)]
  refine ⟨hmain, fun h => ?_⟩
  rw [hmain]
  simp [h]

/-- Witness for C6: from the initial empty state, a 200 response with
token "newtok" and expires_in 120 caches ("newtok", 0 + 120) and
returns "newtok". -/
theorem token_success_caches_witness :
    SpotifyAPI.ensure_token ⟨some "id", some "secret", none⟩ 0 initialTokenState
        (.response 200 "raw" ⟨"newtok", some 120⟩)
      = (.ok "newtok", ⟨"newtok", 0 + Option.getD (some 120) 3600⟩, true) :=
  (token_success_caches ⟨some "id", some "secret", none⟩ 0 initialTokenState "raw"
    ⟨"newtok", some 120⟩ (by norm_num [initialTokenState]) rfl rfl).1

/-- C7: with a missing (or empty) client id or secret, any call that
reaches the refresh path fails with the configuration error before any
network call is attempted, leaving the cached state unchanged. -/
theorem missing_credentials_config_error :
    ∀ (cfg : Config) (now : ℚ) (st : TokenState) (net : TokenHttp),
      ¬(now < st.expiresAt - 60) →
      (truthyEnv cfg.clientId = false ∨ truthyEnv cfg.clientSecret = false) →
      SpotifyAPI.ensure_token cfg now st net
        = (.error (.config missingCredsMsg), st, false) := by
  intro cfg now st net hnow hcred
  have hc : (!truthyEnv cfg.clientId || !truthyEnv cfg.clientSecret) = true := by
    rcases hcred with h | h <;> simp [h]
  rw [SpotifyAPI.ensure_token.eq_def, if_neg hnow, if_pos hc]

/-- Witness for C7: with no client id configured, the first call from
the initial state fails fast with the configuration error and no
network call. -/
theorem missing_credentials_config_error_witness :
    SpotifyAPI.ensure_token ⟨none, some "s", none⟩ 0 initialTokenState (.requestError "net")
      = (.error (.config missingCredsMsg), initialTokenState, false) :=
  missing_credentials_config_error ⟨none, some "s", none⟩ 0 initialTokenState
    (.requestError "net") (by norm_num [initialTokenState]) (Or.inl rfl)

/-- C8: the authenticated accessors translate any response of status
400 or above into the upstream error carrying the method, path, status
and body (no JSON result), whose message interpolates all three. -/
theorem upstream_error_translation :
    ∀ (tok path : String) (status : Nat) (body : String) (j : JVal),
      400 ≤ status →
      SpotifyAPI.get (.ok tok) path (.response status body j)
        = .error (.upstream "GET" path status body) ∧
      SpotifyAPI.post (.ok tok) path (.response status body j)
        = .error (.upstream "POST" path status body) ∧
      (SpotifyError.upstream "GET" path status body).render
        = "Spotify GET " ++ path ++ " failed: HTTP " ++ toString status ++ ": " ++ body ∧
      (SpotifyError.upstream "POST" path status body).render
        = "Spotify POST " ++ path ++ " failed: HTTP " ++ toString status ++ ": " ++ body := by
  intro tok path status body j h
  refine ⟨?_, ?_, rfl, rfl⟩
  · simp only [SpotifyAPI.get, ge_iff_le, if_pos h]
  · simp only [SpotifyAPI.post, ge_iff_le, if_pos h]

/-- Witness for C8: a 404 with body "nf" on path "me" becomes the
upstream error for both accessors. -/
theorem upstream_error_translation_witness :
    SpotifyAPI.get (.ok "t") "me" (.response 404 "nf" .null)
      = .error (.upstream "GET" "me" 404 "nf") ∧
    SpotifyAPI.post (.ok "t") "me" (.response 404 "nf" .null)
      = .error (.upstream "POST" "me" 404 "nf") :=
  ⟨(upstream_error_translation "t" "me" 404 "nf" .null (by norm_num)).1,
   (upstream_error_translation "t" "me" 404 "nf" .null (by norm_num)).2.1⟩

set_option maxRecDepth 10000 in
/-- Counterexample to C9 as stated: a 404 whose body does not contain
"Resource not found" is re-raised by `get_playlist` instead of being
turned into the remediation message, because the wrapper keys on the
message text, not on the status alone. -/
theorem playlist_404_counterexample :
    get_playlist "X" (.ok "tok") (.response 404 "Not Found" .null)
      = .error (.upstream "GET" "playlists/X" 404 "Not Found") := by
  have hpath : "playlists/" ++ "X" = "playlists/X" := by decide
  have hget : SpotifyAPI.get (.ok "tok") "playlists/X" (.response 404 "Not Found" .null)
      = .error (.upstream "GET" "playlists/X" 404 "Not Found") := by
    simp [SpotifyAPI.get]
  have hcond : (strContains (SpotifyError.upstream "GET" "playlists/X" 404 "Not Found").render
        "404" &&
      strContains (SpotifyError.upstream "GET" "playlists/X" 404 "Not Found").render
        "Resource not found") = false := by decide
  simp only [get_playlist, hpath, hget, hcond, Bool.false_eq_true, if_false]

set_option maxRecDepth 10000 in
/-- C9 (amended): the playlist wrappers return the remediation text
exactly when the raised message contains both "404" and "Resource not
found" (as a 404 whose body contains "Resource not found" does), and
re-raise every other error; the remediation text carries refresh-token
configuration guidance. -/
theorem playlist_remediation_policy :
    (∀ (playlist_id : String) (auth : Except SpotifyError String) (net : RestResponse)
        (e : SpotifyError),
       SpotifyAPI.get auth ("playlists/" ++ playlist_id) net = .error e →
       get_playlist playlist_id auth net
         = (if strContains e.render "404" && strContains e.render "Resource not found"
            then .ok (.text (playlistRemediationMsg playlist_id)) else .error e)) ∧
    (∀ (playlist_id : String) (auth : Except SpotifyError String) (net : RestResponse)
        (e : SpotifyError),
       SpotifyAPI.get auth ("playlists/" ++ playlist_id ++ "/tracks") net = .error e →
       get_playlist_tracks playlist_id auth net
         = (if strContains e.render "404" && strContains e.render "Resource not found"
            then .ok (.text (playlistTracksRemediationMsg playlist_id)) else .error e)) ∧
    strContains (playlistRemediationMsg "X") "refresh token" = true ∧
    strContains (playlistRemediationMsg "X") "SPOTIFY_REFRESH_TOKEN" = true ∧
    strContains (playlistTracksRemediationMsg "X") "refresh token" = true := by
  refine ⟨?_, ?_, by decide, by decide, by decide⟩
  · intro playlist_id auth net e h
    simp only [get_playlist, h]
  · intro playlist_id auth net e h
    simp only [get_playlist_tracks, h]

/-- Witness for C9's amended theorem: a 404 whose body is literally
"Resource not found" is mapped by the stated policy. -/
theorem playlist_remediation_policy_witness :
    get_playlist "X" (.ok "t") (.response 404 "Resource not found" .null)
      = (if strContains (SpotifyError.upstream "GET" ("playlists/" ++ "X") 404
              "Resource not found").render "404" &&
            strContains (SpotifyError.upstream "GET" ("playlists/" ++ "X") 404
              "Resource not found").render "Resource not found"
         then .ok (.text (playlistRemediationMsg "X"))
         else .error (.upstream "GET" ("playlists/" ++ "X") 404 "Resource not found")) :=
  playlist_remediation_policy.1 "X" (.ok "t") (.response 404 "Resource not found" .null)
    (.upstream "GET" ("playlists/" ++ "X") 404 "Resource not found")
    (by simp [SpotifyAPI.get])

/-- C10: a `compare_tracks` call with fewer than 2 or more than 5 track
ids returns the guard text asking for between 2 and 5 ids and attempts
no upstream call; only lengths 2 to 5 reach the comparison logic. -/
theorem compare_tracks_length_guard :
    ∀ (o : Oracle) (track_ids : List String),
      track_ids.length < 2 ∨ 5 < track_ids.length →
      compare_tracks o track_ids = .ok (.text compareGuardMsg, 0) := by
  intro o track_ids h
  have hg : ¬(2 ≤ track_ids.length ∧ track_ids.length ≤ 5) := by omega
  rw [compare_tracks.eq_def, if_pos hg]

/-- Witness for C10: one track id yields the guard message and zero
upstream calls. -/
theorem compare_tracks_length_guard_witness :
    compare_tracks ⟨fun _ => .error (.transport "x"), fun _ => .error (.transport "x")⟩ ["a"]
      = .ok (.text compareGuardMsg, 0) :=
  compare_tracks_length_guard
    ⟨fun _ => .error (.transport "x"), fun _ => .error (.transport "x")⟩ ["a"]
    (Or.inl (by norm_num))

end ShadowListen
